import Mathlib

/-
Verification of the experiment driver in dora_exp_pipeline/dora_exp.py.

The driver function start is embedded shallowly as a pure function from its
external collaborators and a filesystem to an event trace plus an outcome.
Every observable action of the Python code (printing, exiting, reading the
configuration, creating the output directory, setting environment variables,
registering algorithms, resolving names, loading data, extracting features,
normalizing, invoking an algorithm, writing an output file) is recorded as an
event, in the order the code performs it, and every fallible external call is
modelled with Except.
-/

set_option autoImplicit false

namespace DoraExp

/-- A filesystem path, as a list of components; the empty list stands for the
current working directory (which always exists). -/
abbrev Path := List String

/-- A keyword-parameter mapping (Python kwargs / dict), as an ordered
association list. -/
abbrev Params := List (String × String)

/-- A loaded dataset: a mapping from field name to the ordered sequence of
per-sample values. dora_exp.py reads the mandatory id field from it with
dict indexing. -/
abbrev Dataset := List (String × List Int)

/-- A 2-D numeric feature matrix; rows are samples. The driver never inspects
its entries, it only passes matrices along. -/
abbrev FeatureMatrix := List (List Int)

/-- The filesystem, as the set of existing paths. -/
abbrev World := List Path

/-- Errors raised by the driver's collaborators: NotFoundError from a registry
lookup, Python KeyError from dict indexing, an IOError-class failure from
os.mkdir, and arbitrary errors from loaders, feature extraction, parsing, or
algorithm runs. -/
inductive Err where
  | notFound (name : String)
  | keyError (key : String)
  | ioError (p : Path)
  | external (msg : String)
  deriving DecidableEq, Repr

/-- The argument tuple of the per-algorithm run call at dora_exp.py lines
130-132: run(dtf_features, dts_features, dts_dict['id'], config.out_dir,
config.results, config.top_n, logger, seed, **alg_params). -/
structure RunArgs where
  fit_features : FeatureMatrix
  score_features : FeatureMatrix
  score_ids : List Int
  out_dir : Path
  result_config : Params
  top_n : Nat
  logger : Option Path
  seed : Int
  alg_params : Params
  deriving DecidableEq, Repr

/-- An outlier-detection algorithm implementation (external collaborator):
its run either fails or succeeds and reports the output files it wrote. -/
structure Alg where
  run : RunArgs → Except Err (List Path)

/-- A data-loader implementation (external collaborator): load(path, **params)
either fails or returns a Dataset. -/
structure DataLoader where
  load : Path → Params → Except Err Dataset

/-- The configuration record consumed by start, with the fields dora_exp.py
reads: config.data_loader['name'], config.data_loader['params'],
config.data_to_fit, config.data_to_score, config.features,
config.zscore_normalization, config.outlier_detection (an ordered mapping),
config.out_dir, config.results, config.top_n. -/
structure DoraConfig where
  data_loader_name : String
  data_loader_params : Params
  data_to_fit : Path
  data_to_score : Path
  features : List String
  zscore_normalization : Bool
  outlier_detection : List (String × Params)
  out_dir : Path
  results : Params
  top_n : Nat
  deriving DecidableEq, Repr

/-- Modelled from the spec: the collaborators of dora_exp.py whose code is not
under src/ — DoraConfig parsing (fallible; a ConfigurationError such as a
missing required field aborts), the data-loader registry consulted by
get_data_loader_by_name, the algorithm pool built by register_od_algs and
consulted by get_alg_by_name (a name-to-implementation mapping), and the pure
functions extract_feature and z_score_normalize of dora_feature. -/
structure Sem where
  parseConfig : Path → Except Err DoraConfig
  loaderPool : List (String × DataLoader)
  algPool : List (String × Alg)
  extract_feature : Dataset → List String → Except Err FeatureMatrix
  z_score_normalize : FeatureMatrix → FeatureMatrix → FeatureMatrix × FeatureMatrix

/-- The observable actions of a run of start, in program order. -/
inductive Event where
  | printError (msg : String)
  | printMsg (msg : String)
  | exitCode (code : Nat)
  | readConfig (p : Path)
  | mkdirE (p : Path)
  | setEnv (key val : String)
  | registerAlgs
  | resolveLoader (name : String)
  | loadFile (loaderName : String) (p : Path) (ps : Params)
  | extractEvt (d : Dataset) (recipe : List String)
  | normalizeEvt
  | resolveAlg (name : String)
  | invokeAlg (name : String) (args : RunArgs)
  | wrote (p : Path)
  deriving DecidableEq, Repr

/-- How a run of start ends: sys.exit(code), an uncaught error, or normal
completion. -/
inductive Outcome where
  | exited (code : Nat)
  | errored (e : Err)
  | completed
  deriving DecidableEq, Repr

/-- First-match association lookup: the shared shape of the registry and dict
lookups performed on behalf of dora_exp.py. -/
def assocFind {α : Type} (key : String) : List (String × α) → Option α
  | [] => none
  | kv :: rest => if kv.1 = key then some kv.2 else assocFind key rest

/-- Embedding of the Python standard-library call at dora_exp.py line 87:
os.mkdir creates exactly one directory level; it raises FileNotFoundError when
the parent directory does not exist and FileExistsError when the path itself
already exists. The parent of a one-component path is the current working
directory, which always exists. -/
def osMkdir (w : World) (p : Path) : Except Err World :=
  if p ∈ w then Except.error (Err.ioError p)
  else if p.dropLast = [] ∨ p.dropLast ∈ w then Except.ok (p :: w)
  else Except.error (Err.ioError p)

/-- Lines 86-90 of dora_exp.py: create the output directory only when it does
not already exist, using the non-recursive os.mkdir. Returns the directory
creation events and whether the step succeeded. -/
def mkdirStep (w : World) (p : Path) : List Event × Except Err Unit :=
  if p ∈ w then ([], Except.ok ())
  else
    match osMkdir w p with
    | Except.error e => ([], Except.error e)
    | Except.ok _ => ([Event.mkdirE p], Except.ok ())

/-- Lines 78-84 of dora_exp.py: an out_dir given on the command line overwrites
the out_dir of the configuration file; otherwise the configuration file's
out_dir is used. -/
def applyOutDirOverride (config : DoraConfig) (cli : Option Path) : DoraConfig :=
  match cli with
  | none => config
  | some d => { config with out_dir := d }

/-- Lines 92-99 of dora_exp.py: the three process-wide environment variables
set to configure tensorflow. -/
def envEvents : List Event :=
  [Event.setEnv "CUDA_VISIBLE_DEVICES" "0",
   Event.setEnv "TF_FORCE_GPU_ALLOW_GROWTH" "True",
   Event.setEnv "TF_CPP_MIN_LOG_LEVEL" "3"]

/-- Lines 123-126 of dora_exp.py: the pair of matrices handed to the
algorithms — the z-score-normalized pair when zscore_normalization is set, the
extracted pair unchanged otherwise. -/
def normalizedPair (sem : Sem) (flag : Bool) (fitM scoreM : FeatureMatrix) :
    FeatureMatrix × FeatureMatrix :=
  if flag then sem.z_score_normalize fitM scoreM else (fitM, scoreM)

/-- The data shared by every iteration of the outlier-detection loop. -/
structure LoopCtx where
  pool : List (String × Alg)
  dtf_features : FeatureMatrix
  dts_features : FeatureMatrix
  dts_dict : Dataset
  out_dir : Path
  results : Params
  top_n : Nat
  logger : Option Path
  seed : Int

/-- The argument tuple built at the call site on lines 130-132. -/
def mkRunArgs (ctx : LoopCtx) (ids : List Int) (alg_params : Params) : RunArgs :=
  ⟨ctx.dtf_features, ctx.dts_features, ids, ctx.out_dir, ctx.results, ctx.top_n,
   ctx.logger, ctx.seed, alg_params⟩

/-- Lines 128-133 of dora_exp.py: iterate the outlier_detection mapping in
order; for each pair resolve the algorithm by name (get_alg_by_name, modelled
from the spec as a lookup that fails with NotFoundError), read dts_dict['id'],
and invoke run. The first failure aborts the rest of the loop. -/
def algLoop (ctx : LoopCtx) : List (String × Params) → List Event × Option Err
  | [] => ([], none)
  | np :: rest =>
    match assocFind np.1 ctx.pool with
    | none => ([Event.resolveAlg np.1], some (Err.notFound np.1))
    | some alg =>
      match assocFind "id" ctx.dts_dict with
      | none => ([Event.resolveAlg np.1], some (Err.keyError "id"))
      | some ids =>
        match alg.run (mkRunArgs ctx ids np.2) with
        | Except.error e =>
          ([Event.resolveAlg np.1, Event.invokeAlg np.1 (mkRunArgs ctx ids np.2)],
           some e)
        | Except.ok writes =>
          (Event.resolveAlg np.1 :: Event.invokeAlg np.1 (mkRunArgs ctx ids np.2) ::
            (writes.map Event.wrote ++ (algLoop ctx rest).1),
           (algLoop ctx rest).2)

/-- Lines 101-133 of dora_exp.py, everything after register_od_algs: resolve
the data loader by name (get_data_loader_by_name, modelled from the spec as a
registry lookup failing with NotFoundError), load data_to_fit and
data_to_score with the same loader and the same parameters, extract features
from both datasets with the same recipe, z-score-normalize when configured,
and run the outlier-detection loop. -/
def afterRegister (sem : Sem) (config : DoraConfig) (logger : Option Path)
    (seed : Int) : List Event × Outcome :=
  match assocFind config.data_loader_name sem.loaderPool with
  | none => ([Event.resolveLoader config.data_loader_name],
             Outcome.errored (Err.notFound config.data_loader_name))
  | some loader =>
    let pre2 := [Event.resolveLoader config.data_loader_name,
                 Event.printMsg "Loading data_to_fit",
                 Event.loadFile config.data_loader_name config.data_to_fit
                   config.data_loader_params]
    match loader.load config.data_to_fit config.data_loader_params with
    | Except.error e => (pre2, Outcome.errored e)
    | Except.ok dtf_dict =>
      let pre3 := pre2 ++ [Event.printMsg "Loading data_to_score",
                           Event.loadFile config.data_loader_name config.data_to_score
                             config.data_loader_params]
      match loader.load config.data_to_score config.data_loader_params with
      | Except.error e => (pre3, Outcome.errored e)
      | Except.ok dts_dict =>
        let pre4 := pre3 ++ [Event.extractEvt dtf_dict config.features]
        match sem.extract_feature dtf_dict config.features with
        | Except.error e => (pre4, Outcome.errored e)
        | Except.ok dtf_features =>
          let pre5 := pre4 ++ [Event.extractEvt dts_dict config.features]
          match sem.extract_feature dts_dict config.features with
          | Except.error e => (pre5, Outcome.errored e)
          | Except.ok dts_features =>
            let normed :=
              normalizedPair sem config.zscore_normalization dtf_features dts_features
            let pre6 := pre5 ++
              (if config.zscore_normalization then [Event.normalizeEvt] else [])
            let ctx : LoopCtx := ⟨sem.algPool, normed.1, normed.2, dts_dict,
                                  config.out_dir, config.results, config.top_n,
                                  logger, seed⟩
            (pre6 ++ (algLoop ctx config.outlier_detection).1,
             match (algLoop ctx config.outlier_detection).2 with
             | none => Outcome.completed
             | some e => Outcome.errored e)

/-- Lines 92-133 of dora_exp.py: after the output-directory step the driver
sets the tensorflow environment variables, registers the algorithms, and
continues with afterRegister. pre holds the events already performed. -/
def afterMkdir (sem : Sem) (config : DoraConfig) (logger : Option Path)
    (seed : Int) (pre : List Event) : List Event × Outcome :=
  (pre ++ envEvents ++ Event.registerAlgs :: (afterRegister sem config logger seed).1,
   (afterRegister sem config logger seed).2)

/-- Lines 73-133 of dora_exp.py: the body of start once the configuration file
is known to exist — parse the configuration, apply the CLI out_dir override,
create the output directory when absent, then continue with afterMkdir. -/
def startBody (sem : Sem) (w : World) (config_file : Path)
    (cli_out_dir : Option Path) (logger : Option Path) (seed : Int) :
    List Event × Outcome :=
  match sem.parseConfig config_file with
  | Except.error e => ([Event.readConfig config_file], Outcome.errored e)
  | Except.ok config0 =>
    let config := applyOutDirOverride config0 cli_out_dir
    match (mkdirStep w config.out_dir).2 with
    | Except.error e =>
      (Event.readConfig config_file :: (mkdirStep w config.out_dir).1,
       Outcome.errored e)
    | Except.ok _ =>
      afterMkdir sem config logger seed
        (Event.readConfig config_file :: (mkdirStep w config.out_dir).1)

/-- The driver entry point start(config_file, out_dir, log_file, seed) of
dora_exp.py, lines 67-133: if the configuration file does not exist, print an
error and exit with code 1; otherwise run the pipeline. The logger passed to
algorithms is present exactly when log_file is supplied. -/
def start (sem : Sem) (w : World) (config_file : Path) (out_dir : Option Path)
    (log_file : Option Path) (seed : Int) : List Event × Outcome :=
  if config_file ∈ w then
    startBody sem w config_file out_dir log_file seed
  else
    ([Event.printError ("[ERROR] Configuration file not found: " ++
        String.intercalate "/" config_file),
      Event.exitCode 1],
     Outcome.exited 1)

/-- Following the spec's words (section 4.2 step 6): for each pair in the
outlier-detection mapping, in the mapping's iteration order, resolve the
algorithm and invoke it with the shared fit and score matrices, the score
dataset's id sequence, the output directory, the result-reporting
configuration, top-N, the optional logger, the run seed, and the
algorithm-specific parameters; each algorithm then writes its own outputs. -/
def specAlgCalls (fitM scoreM : FeatureMatrix) (ids : List Int) (outd : Path)
    (results : Params) (topn : Nat) (logger : Option Path) (seed : Int)
    (writesOf : String × Params → List Path) :
    List (String × Params) → List Event
  | [] => []
  | np :: rest =>
    Event.resolveAlg np.1 ::
      Event.invokeAlg np.1 ⟨fitM, scoreM, ids, outd, results, topn, logger, seed, np.2⟩ ::
      ((writesOf np).map Event.wrote ++
        specAlgCalls fitM scoreM ids outd results topn logger seed writesOf rest)

/-- The shape every event emitted after register_od_algs can have: it lets a
single lemma rule out directory creation or environment mutation during the
data and algorithm phases and pins the configuration-derived fields of every
algorithm invocation. -/
def TracedEvent (config : DoraConfig) (logger : Option Path) (seed : Int) :
    Event → Prop
  | Event.printMsg _ => True
  | Event.resolveLoader n => n = config.data_loader_name
  | Event.loadFile n p ps =>
      n = config.data_loader_name ∧ ps = config.data_loader_params ∧
      (p = config.data_to_fit ∨ p = config.data_to_score)
  | Event.extractEvt _ r => r = config.features
  | Event.normalizeEvt => config.zscore_normalization = true
  | Event.resolveAlg _ => True
  | Event.invokeAlg _ a =>
      a.out_dir = config.out_dir ∧ a.result_config = config.results ∧
      a.top_n = config.top_n ∧ a.logger = logger ∧ a.seed = seed
  | Event.wrote _ => True
  | _ => False

/-- A concrete dataset used to instantiate the theorems. -/
def sampleDataset : Dataset := [("id", [10, 11, 12]), ("val", [1, 2, 3])]

/-- A concrete feature matrix used to instantiate the theorems. -/
def sampleMatrix : FeatureMatrix := [[1], [2], [3]]

/-- A concrete algorithm whose run succeeds and writes one output file. -/
def sampleAlg : Alg := ⟨fun _ => Except.ok [["out", "alg1.csv"]]⟩

/-- A concrete algorithm whose run fails. -/
def failingAlg : Alg := ⟨fun _ => Except.error (Err.external "bad params")⟩

/-- A concrete data loader that returns sampleDataset for any path. -/
def sampleLoader : DataLoader := ⟨fun _ _ => Except.ok sampleDataset⟩

/-- A concrete configuration with one registered algorithm. -/
def sampleConfig : DoraConfig :=
  ⟨"glue", [("one", "1")], ["data", "fit.h5"], ["data", "score.h5"], ["raw"],
   false, [("alg1", [("k", "2")])], ["out"], [("save_scores", "True")], 10⟩

/-- Concrete collaborators: sampleConfig parses, one loader, one algorithm,
extraction returns sampleMatrix, and z-score normalization is the identity. -/
def sampleSem : Sem :=
  ⟨fun _ => Except.ok sampleConfig, [("glue", sampleLoader)], [("alg1", sampleAlg)],
   fun _ _ => Except.ok sampleMatrix, fun a b => (a, b)⟩

/-- A concrete filesystem where the configuration file and out exist. -/
def sampleWorld : World := [["config.yml"], ["out"]]

/-- sampleConfig with a second, unregistered algorithm name after alg1. -/
def badAlgConfig : DoraConfig :=
  { sampleConfig with outlier_detection := [("alg1", [("k", "2")]), ("nope", [])] }

/-- sampleSem parsing to badAlgConfig. -/
def badAlgSem : Sem := { sampleSem with parseConfig := fun _ => Except.ok badAlgConfig }

/-- sampleConfig running alg1, then an algorithm whose run fails, then alg1
again (which must never run). -/
def failMidConfig : DoraConfig :=
  { sampleConfig with
      outlier_detection := [("alg1", [("k", "2")]), ("bad", []), ("alg1", [])] }

/-- sampleSem parsing to failMidConfig, with the failing algorithm registered. -/
def failMidSem : Sem :=
  { sampleSem with
      parseConfig := fun _ => Except.ok failMidConfig,
      algPool := [("alg1", sampleAlg), ("bad", failingAlg)] }

/-- sampleConfig whose out_dir lies under a directory that does not exist. -/
def deepOutConfig : DoraConfig :=
  { sampleConfig with out_dir := ["missing", "out"] }

/-- sampleSem parsing to deepOutConfig. -/
def deepOutSem : Sem :=
  { sampleSem with parseConfig := fun _ => Except.ok deepOutConfig }

/-- sampleConfig with zscore_normalization enabled. -/
def zscoreConfig : DoraConfig := { sampleConfig with zscore_normalization := true }

/-- sampleSem parsing to zscoreConfig, with a normalization that swaps the two
matrices so that its effect is observable. -/
def zscoreSem : Sem :=
  { sampleSem with
      parseConfig := fun _ => Except.ok zscoreConfig,
      z_score_normalize := fun a b => (b, a) }

/-- Every event of the output-directory step is the creation of that
directory. -/
theorem mkdirStep_events (w : World) (p : Path) :
    ∀ e ∈ (mkdirStep w p).1, e = Event.mkdirE p := by
  intro e he
  unfold mkdirStep at he
  split at he
  · simp at he
  · split at he
    · simp at he
    · simp at he
      exact he

/-- Every event of the outlier-detection loop is an algorithm resolution, an
invocation whose arguments are built by mkRunArgs from the shared context, or
an output write. -/
theorem algLoop_events (ctx : LoopCtx) (l : List (String × Params)) :
    ∀ e ∈ (algLoop ctx l).1,
      (∃ n, e = Event.resolveAlg n) ∨
      (∃ n ids p, e = Event.invokeAlg n (mkRunArgs ctx ids p)) ∨
      (∃ p, e = Event.wrote p) := by
  induction l with
  | nil => intro e he; simp [algLoop] at he
  | cons np rest ih =>
    intro e he
    rcases h1 : assocFind np.1 ctx.pool with _ | alg
    · simp only [algLoop, h1] at he
      simp at he
      exact Or.inl ⟨np.1, he⟩
    · rcases h2 : assocFind "id" ctx.dts_dict with _ | ids
      · simp only [algLoop, h1, h2] at he
        simp at he
        exact Or.inl ⟨np.1, he⟩
      · rcases h3 : alg.run (mkRunArgs ctx ids np.2) with e' | writes
        · simp only [algLoop, h1, h2, h3] at he
          simp at he
          rcases he with he | he
          · exact Or.inl ⟨np.1, he⟩
          · exact Or.inr (Or.inl ⟨np.1, ids, np.2, he⟩)
        · simp only [algLoop, h1, h2, h3] at he
          simp at he
          rcases he with he | he | he | he
          · exact Or.inl ⟨np.1, he⟩
          · exact Or.inr (Or.inl ⟨np.1, ids, np.2, he⟩)
          · rcases he with ⟨p, _, hp⟩
            exact Or.inr (Or.inr ⟨p, hp.symm⟩)
          · exact ih e he

/-- When every algorithm of a prefix of the mapping resolves and runs
successfully, the loop's trace on that prefix is exactly the per-algorithm
resolve-invoke-write sequence described by the spec, followed by the loop on
the remainder. -/
theorem algLoop_append_good (ctx : LoopCtx) (ids : List Int)
    (algOf : String → Alg) (writesOf : String × Params → List Path)
    (good l2 : List (String × Params))
    (hid : assocFind "id" ctx.dts_dict = some ids)
    (h : ∀ np ∈ good, assocFind np.1 ctx.pool = some (algOf np.1) ∧
          (algOf np.1).run (mkRunArgs ctx ids np.2) = Except.ok (writesOf np)) :
    algLoop ctx (good ++ l2) =
      (specAlgCalls ctx.dtf_features ctx.dts_features ids ctx.out_dir ctx.results
         ctx.top_n ctx.logger ctx.seed writesOf good ++ (algLoop ctx l2).1,
       (algLoop ctx l2).2) := by
  induction good with
  | nil => simp [specAlgCalls]
  | cons np rest ih =>
    obtain ⟨h1, h2⟩ := h np (by simp)
    have hrest : ∀ x ∈ rest, assocFind x.1 ctx.pool = some (algOf x.1) ∧
        (algOf x.1).run (mkRunArgs ctx ids x.2) = Except.ok (writesOf x) :=
      fun x hx => h x (by simp [hx])
    simp only [List.cons_append, algLoop, h1, hid, h2, specAlgCalls]
    simp [ih hrest, mkRunArgs]

/-- Every event emitted from get_data_loader_by_name onward satisfies
TracedEvent. -/
theorem afterRegister_events (sem : Sem) (config : DoraConfig)
    (logger : Option Path) (seed : Int) :
    ∀ e ∈ (afterRegister sem config logger seed).1,
      TracedEvent config logger seed e := by
  simp only [afterRegister]
  split
  · simp [TracedEvent]
  · split
    · simp [TracedEvent]
    · split
      · simp [TracedEvent]
      · split
        · simp [TracedEvent]
        · split
          · simp [TracedEvent]
          · rw [List.forall_mem_append]
            constructor
            · cases hz : config.zscore_normalization <;> simp [hz, TracedEvent]
            · intro e he
              rcases algLoop_events _ _ e he with ⟨n, rfl⟩ | ⟨n, ids, p, rfl⟩ | ⟨p, rfl⟩ <;>
                simp [TracedEvent, mkRunArgs]

/-- Claim C1: for every configuration, once parsing, directory setup, loading,
feature extraction, and normalization succeed, the driver iterates the
outlier_detection mapping in its iteration order, one algorithm at a time, and
for each pair resolves the algorithm by name from the pool and invokes its run
with exactly the shared fit matrix, the shared score matrix, the score
dataset's id sequence, the resolved output directory, the result-reporting
configuration, top_n, the optional logger, the run seed, and that algorithm's
own parameters: the whole trace equals the per-algorithm resolve-invoke-write
sequence of specAlgCalls, in mapping order. -/
theorem c1_loop_order_and_args (sem : Sem) (w : World) (config_file : Path)
    (cli log_file : Option Path) (seed : Int) (config0 config : DoraConfig)
    (loader : DataLoader) (dtf_dict dts_dict : Dataset)
    (fitM scoreM : FeatureMatrix) (ids : List Int)
    (algOf : String → Alg) (writesOf : String × Params → List Path)
    (hcf : config_file ∈ w)
    (hparse : sem.parseConfig config_file = Except.ok config0)
    (hconfig : config = applyOutDirOverride config0 cli)
    (hmk : (mkdirStep w config.out_dir).2 = Except.ok ())
    (hloader : assocFind config.data_loader_name sem.loaderPool = some loader)
    (hload1 : loader.load config.data_to_fit config.data_loader_params = Except.ok dtf_dict)
    (hload2 : loader.load config.data_to_score config.data_loader_params = Except.ok dts_dict)
    (hex1 : sem.extract_feature dtf_dict config.features = Except.ok fitM)
    (hex2 : sem.extract_feature dts_dict config.features = Except.ok scoreM)
    (hid : assocFind "id" dts_dict = some ids)
    (halg : ∀ np ∈ config.outlier_detection,
      assocFind np.1 sem.algPool = some (algOf np.1) ∧
      (algOf np.1).run ⟨(normalizedPair sem config.zscore_normalization fitM scoreM).1,
        (normalizedPair sem config.zscore_normalization fitM scoreM).2, ids,
        config.out_dir, config.results, config.top_n, log_file, seed, np.2⟩ =
        Except.ok (writesOf np)) :
    start sem w config_file cli log_file seed =
      (Event.readConfig config_file :: (mkdirStep w config.out_dir).1 ++ envEvents ++
        Event.registerAlgs :: Event.resolveLoader config.data_loader_name ::
        Event.printMsg "Loading data_to_fit" ::
        Event.loadFile config.data_loader_name config.data_to_fit config.data_loader_params ::
        Event.printMsg "Loading data_to_score" ::
        Event.loadFile config.data_loader_name config.data_to_score config.data_loader_params ::
        Event.extractEvt dtf_dict config.features ::
        Event.extractEvt dts_dict config.features ::
        ((if config.zscore_normalization then [Event.normalizeEvt] else []) ++
          specAlgCalls (normalizedPair sem config.zscore_normalization fitM scoreM).1
            (normalizedPair sem config.zscore_normalization fitM scoreM).2 ids
            config.out_dir config.results config.top_n log_file seed writesOf
            config.outlier_detection),
       Outcome.completed) := by
  subst hconfig
  have hloop := algLoop_append_good
    ⟨sem.algPool,
     (normalizedPair sem (applyOutDirOverride config0 cli).zscore_normalization fitM scoreM).1,
     (normalizedPair sem (applyOutDirOverride config0 cli).zscore_normalization fitM scoreM).2,
     dts_dict, (applyOutDirOverride config0 cli).out_dir,
     (applyOutDirOverride config0 cli).results,
     (applyOutDirOverride config0 cli).top_n, log_file, seed⟩
    ids algOf writesOf (applyOutDirOverride config0 cli).outlier_detection [] hid halg
  rw [List.append_nil] at hloop
  unfold start
  rw [if_pos hcf]
  simp only [startBody, hparse, hmk]
  simp only [afterMkdir, afterRegister, hloader, hload1, hload2, hex1, hex2]
  simp [hloop, algLoop]

/-- Witness for C1 at a concrete configuration with one algorithm. -/
theorem c1_witness :
    ["config.yml"] ∈ sampleWorld ∧
    (mkdirStep sampleWorld sampleConfig.out_dir).2 = Except.ok () ∧
    assocFind "id" sampleDataset = some [10, 11, 12] ∧
    start sampleSem sampleWorld ["config.yml"] none none 1234 =
      (Event.readConfig ["config.yml"] :: (mkdirStep sampleWorld sampleConfig.out_dir).1 ++
        envEvents ++
        Event.registerAlgs :: Event.resolveLoader sampleConfig.data_loader_name ::
        Event.printMsg "Loading data_to_fit" ::
        Event.loadFile sampleConfig.data_loader_name sampleConfig.data_to_fit
          sampleConfig.data_loader_params ::
        Event.printMsg "Loading data_to_score" ::
        Event.loadFile sampleConfig.data_loader_name sampleConfig.data_to_score
          sampleConfig.data_loader_params ::
        Event.extractEvt sampleDataset sampleConfig.features ::
        Event.extractEvt sampleDataset sampleConfig.features ::
        ((if sampleConfig.zscore_normalization then [Event.normalizeEvt] else []) ++
          specAlgCalls
            (normalizedPair sampleSem sampleConfig.zscore_normalization sampleMatrix sampleMatrix).1
            (normalizedPair sampleSem sampleConfig.zscore_normalization sampleMatrix sampleMatrix).2
            [10, 11, 12] sampleConfig.out_dir sampleConfig.results sampleConfig.top_n
            none 1234 (fun _ => [["out", "alg1.csv"]]) sampleConfig.outlier_detection),
       Outcome.completed) :=
  ⟨by decide, rfl, rfl,
   c1_loop_order_and_args sampleSem sampleWorld ["config.yml"] none none 1234
     sampleConfig sampleConfig sampleLoader sampleDataset sampleDataset
     sampleMatrix sampleMatrix [10, 11, 12] (fun _ => sampleAlg)
     (fun _ => [["out", "alg1.csv"]])
     (by decide) rfl rfl rfl rfl rfl rfl rfl rfl rfl
     (by
       intro np hnp
       simp [sampleConfig] at hnp
       subst hnp
       exact ⟨rfl, rfl⟩)⟩

/-- Counterexample to C2 as stated: with an algorithm mapping whose second
name is unregistered, the run does abort with NotFoundError, but both the fit
and the score dataset have already been loaded — the unresolvable algorithm
name is not detected prior to loading. -/
theorem c2_counterexample :
    (start badAlgSem sampleWorld ["config.yml"] none none 1234).2 =
      Outcome.errored (Err.notFound "nope") ∧
    Event.loadFile "glue" ["data", "fit.h5"] [("one", "1")] ∈
      (start badAlgSem sampleWorld ["config.yml"] none none 1234).1 ∧
    Event.loadFile "glue" ["data", "score.h5"] [("one", "1")] ∈
      (start badAlgSem sampleWorld ["config.yml"] none none 1234).1 :=
  ⟨by decide, by decide, by decide⟩

/-- Claim C2 as amended: a configuration containing an unresolvable algorithm
name makes the run abort with NotFoundError, but the name is detected only
when the outlier-detection loop reaches it, after the fit and score datasets
have been loaded, not before. -/
theorem c2_unresolved_alg_after_load (sem : Sem) (w : World) (config_file : Path)
    (cli log_file : Option Path) (seed : Int) (config0 config : DoraConfig)
    (loader : DataLoader) (dtf_dict dts_dict : Dataset)
    (fitM scoreM : FeatureMatrix) (ids : List Int)
    (algOf : String → Alg) (writesOf : String × Params → List Path)
    (good rest : List (String × Params)) (badName : String) (badParams : Params)
    (hcf : config_file ∈ w)
    (hparse : sem.parseConfig config_file = Except.ok config0)
    (hconfig : config = applyOutDirOverride config0 cli)
    (hmk : (mkdirStep w config.out_dir).2 = Except.ok ())
    (hloader : assocFind config.data_loader_name sem.loaderPool = some loader)
    (hload1 : loader.load config.data_to_fit config.data_loader_params = Except.ok dtf_dict)
    (hload2 : loader.load config.data_to_score config.data_loader_params = Except.ok dts_dict)
    (hex1 : sem.extract_feature dtf_dict config.features = Except.ok fitM)
    (hex2 : sem.extract_feature dts_dict config.features = Except.ok scoreM)
    (hid : assocFind "id" dts_dict = some ids)
    (hsplit : config.outlier_detection = good ++ (badName, badParams) :: rest)
    (hgood : ∀ np ∈ good,
      assocFind np.1 sem.algPool = some (algOf np.1) ∧
      (algOf np.1).run ⟨(normalizedPair sem config.zscore_normalization fitM scoreM).1,
        (normalizedPair sem config.zscore_normalization fitM scoreM).2, ids,
        config.out_dir, config.results, config.top_n, log_file, seed, np.2⟩ =
        Except.ok (writesOf np))
    (hbad : assocFind badName sem.algPool = none) :
    (start sem w config_file cli log_file seed).2 =
      Outcome.errored (Err.notFound badName) ∧
    Event.loadFile config.data_loader_name config.data_to_fit
      config.data_loader_params ∈ (start sem w config_file cli log_file seed).1 ∧
    Event.loadFile config.data_loader_name config.data_to_score
      config.data_loader_params ∈ (start sem w config_file cli log_file seed).1 := by
  subst hconfig
  have hloop := algLoop_append_good
    ⟨sem.algPool,
     (normalizedPair sem (applyOutDirOverride config0 cli).zscore_normalization fitM scoreM).1,
     (normalizedPair sem (applyOutDirOverride config0 cli).zscore_normalization fitM scoreM).2,
     dts_dict, (applyOutDirOverride config0 cli).out_dir,
     (applyOutDirOverride config0 cli).results,
     (applyOutDirOverride config0 cli).top_n, log_file, seed⟩
    ids algOf writesOf good ((badName, badParams) :: rest) hid hgood
  unfold start
  rw [if_pos hcf]
  simp only [startBody, hparse, hmk]
  simp only [afterMkdir, afterRegister, hloader, hload1, hload2, hex1, hex2, hsplit]
  rw [hloop]
  simp only [algLoop, hbad]
  refine ⟨by simp, by simp, by simp⟩

/-- Witness for the amended C2. -/
theorem c2_witness :
    ["config.yml"] ∈ sampleWorld ∧
    badAlgConfig.outlier_detection = [("alg1", [("k", "2")])] ++ ("nope", []) :: [] ∧
    assocFind "nope" badAlgSem.algPool = none ∧
    ((start badAlgSem sampleWorld ["config.yml"] none none 1234).2 =
       Outcome.errored (Err.notFound "nope") ∧
     Event.loadFile badAlgConfig.data_loader_name badAlgConfig.data_to_fit
       badAlgConfig.data_loader_params ∈
         (start badAlgSem sampleWorld ["config.yml"] none none 1234).1 ∧
     Event.loadFile badAlgConfig.data_loader_name badAlgConfig.data_to_score
       badAlgConfig.data_loader_params ∈
         (start badAlgSem sampleWorld ["config.yml"] none none 1234).1) :=
  ⟨by decide, rfl, rfl,
   c2_unresolved_alg_after_load badAlgSem sampleWorld ["config.yml"] none none 1234
     badAlgConfig badAlgConfig sampleLoader sampleDataset sampleDataset
     sampleMatrix sampleMatrix [10, 11, 12] (fun _ => sampleAlg)
     (fun _ => [["out", "alg1.csv"]]) [("alg1", [("k", "2")])] [] "nope" []
     (by decide) rfl rfl rfl rfl rfl rfl rfl rfl rfl rfl
     (by
       intro np hnp
       simp at hnp
       subst hnp
       exact ⟨rfl, rfl⟩)
     rfl⟩

/-- Counterexample to C3 as stated: with an algorithm mapping whose second
name is unregistered, the run aborts with NotFoundError, but the algorithm
configured before it has already run and written an output file. -/
theorem c3_counterexample :
    (start badAlgSem sampleWorld ["config.yml"] none none 1234).2 =
      Outcome.errored (Err.notFound "nope") ∧
    Event.wrote ["out", "alg1.csv"] ∈
      (start badAlgSem sampleWorld ["config.yml"] none none 1234).1 :=
  ⟨by decide, by decide⟩

/-- Claim C3 as amended: a configuration referencing an unregistered algorithm
name aborts with NotFoundError when the loop reaches that name; the trace ends
at that resolution, so neither the unresolved algorithm nor any
later-configured algorithm runs or writes output — but every earlier-configured
registered algorithm has already run (and written its outputs). -/
theorem c3_unresolved_alg_stops_loop (sem : Sem) (w : World) (config_file : Path)
    (cli log_file : Option Path) (seed : Int) (config0 config : DoraConfig)
    (loader : DataLoader) (dtf_dict dts_dict : Dataset)
    (fitM scoreM : FeatureMatrix) (ids : List Int)
    (algOf : String → Alg) (writesOf : String × Params → List Path)
    (good rest : List (String × Params)) (badName : String) (badParams : Params)
    (hcf : config_file ∈ w)
    (hparse : sem.parseConfig config_file = Except.ok config0)
    (hconfig : config = applyOutDirOverride config0 cli)
    (hmk : (mkdirStep w config.out_dir).2 = Except.ok ())
    (hloader : assocFind config.data_loader_name sem.loaderPool = some loader)
    (hload1 : loader.load config.data_to_fit config.data_loader_params = Except.ok dtf_dict)
    (hload2 : loader.load config.data_to_score config.data_loader_params = Except.ok dts_dict)
    (hex1 : sem.extract_feature dtf_dict config.features = Except.ok fitM)
    (hex2 : sem.extract_feature dts_dict config.features = Except.ok scoreM)
    (hid : assocFind "id" dts_dict = some ids)
    (hsplit : config.outlier_detection = good ++ (badName, badParams) :: rest)
    (hgood : ∀ np ∈ good,
      assocFind np.1 sem.algPool = some (algOf np.1) ∧
      (algOf np.1).run ⟨(normalizedPair sem config.zscore_normalization fitM scoreM).1,
        (normalizedPair sem config.zscore_normalization fitM scoreM).2, ids,
        config.out_dir, config.results, config.top_n, log_file, seed, np.2⟩ =
        Except.ok (writesOf np))
    (hbad : assocFind badName sem.algPool = none) :
    start sem w config_file cli log_file seed =
      (Event.readConfig config_file :: (mkdirStep w config.out_dir).1 ++ envEvents ++
        Event.registerAlgs :: Event.resolveLoader config.data_loader_name ::
        Event.printMsg "Loading data_to_fit" ::
        Event.loadFile config.data_loader_name config.data_to_fit config.data_loader_params ::
        Event.printMsg "Loading data_to_score" ::
        Event.loadFile config.data_loader_name config.data_to_score config.data_loader_params ::
        Event.extractEvt dtf_dict config.features ::
        Event.extractEvt dts_dict config.features ::
        ((if config.zscore_normalization then [Event.normalizeEvt] else []) ++
          (specAlgCalls (normalizedPair sem config.zscore_normalization fitM scoreM).1
             (normalizedPair sem config.zscore_normalization fitM scoreM).2 ids
             config.out_dir config.results config.top_n log_file seed writesOf good ++
           [Event.resolveAlg badName])),
       Outcome.errored (Err.notFound badName)) := by
  subst hconfig
  have hloop := algLoop_append_good
    ⟨sem.algPool,
     (normalizedPair sem (applyOutDirOverride config0 cli).zscore_normalization fitM scoreM).1,
     (normalizedPair sem (applyOutDirOverride config0 cli).zscore_normalization fitM scoreM).2,
     dts_dict, (applyOutDirOverride config0 cli).out_dir,
     (applyOutDirOverride config0 cli).results,
     (applyOutDirOverride config0 cli).top_n, log_file, seed⟩
    ids algOf writesOf good ((badName, badParams) :: rest) hid hgood
  unfold start
  rw [if_pos hcf]
  simp only [startBody, hparse, hmk]
  simp only [afterMkdir, afterRegister, hloader, hload1, hload2, hex1, hex2, hsplit]
  rw [hloop]
  simp only [algLoop, hbad]
  simp

/-- Witness for the amended C3. -/
theorem c3_witness :
    ["config.yml"] ∈ sampleWorld ∧
    badAlgConfig.outlier_detection = [("alg1", [("k", "2")])] ++ ("nope", []) :: [] ∧
    assocFind "nope" badAlgSem.algPool = none ∧
    start badAlgSem sampleWorld ["config.yml"] none none 1234 =
      (Event.readConfig ["config.yml"] :: (mkdirStep sampleWorld badAlgConfig.out_dir).1 ++
        envEvents ++
        Event.registerAlgs :: Event.resolveLoader badAlgConfig.data_loader_name ::
        Event.printMsg "Loading data_to_fit" ::
        Event.loadFile badAlgConfig.data_loader_name badAlgConfig.data_to_fit
          badAlgConfig.data_loader_params ::
        Event.printMsg "Loading data_to_score" ::
        Event.loadFile badAlgConfig.data_loader_name badAlgConfig.data_to_score
          badAlgConfig.data_loader_params ::
        Event.extractEvt sampleDataset badAlgConfig.features ::
        Event.extractEvt sampleDataset badAlgConfig.features ::
        ((if badAlgConfig.zscore_normalization then [Event.normalizeEvt] else []) ++
          (specAlgCalls
             (normalizedPair badAlgSem badAlgConfig.zscore_normalization sampleMatrix sampleMatrix).1
             (normalizedPair badAlgSem badAlgConfig.zscore_normalization sampleMatrix sampleMatrix).2
             [10, 11, 12] badAlgConfig.out_dir badAlgConfig.results badAlgConfig.top_n
             none 1234 (fun _ => [["out", "alg1.csv"]]) [("alg1", [("k", "2")])] ++
           [Event.resolveAlg "nope"])),
       Outcome.errored (Err.notFound "nope")) :=
  ⟨by decide, rfl, rfl,
   c3_unresolved_alg_stops_loop badAlgSem sampleWorld ["config.yml"] none none 1234
     badAlgConfig badAlgConfig sampleLoader sampleDataset sampleDataset
     sampleMatrix sampleMatrix [10, 11, 12] (fun _ => sampleAlg)
     (fun _ => [["out", "alg1.csv"]]) [("alg1", [("k", "2")])] [] "nope" []
     (by decide) rfl rfl rfl rfl rfl rfl rfl rfl rfl rfl
     (by
       intro np hnp
       simp at hnp
       subst hnp
       exact ⟨rfl, rfl⟩)
     rfl⟩

/-- Claim C4: if a configured algorithm's run raises an error, that error
propagates out of the driver un-masked (the outcome is exactly that error) and
the trace ends at the failing invocation, so none of the algorithms configured
after it are resolved or invoked. -/
theorem c4_failure_aborts_rest (sem : Sem) (w : World) (config_file : Path)
    (cli log_file : Option Path) (seed : Int) (config0 config : DoraConfig)
    (loader : DataLoader) (dtf_dict dts_dict : Dataset)
    (fitM scoreM : FeatureMatrix) (ids : List Int)
    (algOf : String → Alg) (writesOf : String × Params → List Path)
    (good rest : List (String × Params)) (badName : String) (badParams : Params)
    (badAlg : Alg) (err : Err)
    (hcf : config_file ∈ w)
    (hparse : sem.parseConfig config_file = Except.ok config0)
    (hconfig : config = applyOutDirOverride config0 cli)
    (hmk : (mkdirStep w config.out_dir).2 = Except.ok ())
    (hloader : assocFind config.data_loader_name sem.loaderPool = some loader)
    (hload1 : loader.load config.data_to_fit config.data_loader_params = Except.ok dtf_dict)
    (hload2 : loader.load config.data_to_score config.data_loader_params = Except.ok dts_dict)
    (hex1 : sem.extract_feature dtf_dict config.features = Except.ok fitM)
    (hex2 : sem.extract_feature dts_dict config.features = Except.ok scoreM)
    (hid : assocFind "id" dts_dict = some ids)
    (hsplit : config.outlier_detection = good ++ (badName, badParams) :: rest)
    (hgood : ∀ np ∈ good,
      assocFind np.1 sem.algPool = some (algOf np.1) ∧
      (algOf np.1).run ⟨(normalizedPair sem config.zscore_normalization fitM scoreM).1,
        (normalizedPair sem config.zscore_normalization fitM scoreM).2, ids,
        config.out_dir, config.results, config.top_n, log_file, seed, np.2⟩ =
        Except.ok (writesOf np))
    (hbadres : assocFind badName sem.algPool = some badAlg)
    (hbadrun : badAlg.run ⟨(normalizedPair sem config.zscore_normalization fitM scoreM).1,
        (normalizedPair sem config.zscore_normalization fitM scoreM).2, ids,
        config.out_dir, config.results, config.top_n, log_file, seed, badParams⟩ =
        Except.error err) :
    start sem w config_file cli log_file seed =
      (Event.readConfig config_file :: (mkdirStep w config.out_dir).1 ++ envEvents ++
        Event.registerAlgs :: Event.resolveLoader config.data_loader_name ::
        Event.printMsg "Loading data_to_fit" ::
        Event.loadFile config.data_loader_name config.data_to_fit config.data_loader_params ::
        Event.printMsg "Loading data_to_score" ::
        Event.loadFile config.data_loader_name config.data_to_score config.data_loader_params ::
        Event.extractEvt dtf_dict config.features ::
        Event.extractEvt dts_dict config.features ::
        ((if config.zscore_normalization then [Event.normalizeEvt] else []) ++
          (specAlgCalls (normalizedPair sem config.zscore_normalization fitM scoreM).1
             (normalizedPair sem config.zscore_normalization fitM scoreM).2 ids
             config.out_dir config.results config.top_n log_file seed writesOf good ++
           [Event.resolveAlg badName,
            Event.invokeAlg badName
              ⟨(normalizedPair sem config.zscore_normalization fitM scoreM).1,
               (normalizedPair sem config.zscore_normalization fitM scoreM).2, ids,
               config.out_dir, config.results, config.top_n, log_file, seed, badParams⟩])),
       Outcome.errored err) := by
  subst hconfig
  have hloop := algLoop_append_good
    ⟨sem.algPool,
     (normalizedPair sem (applyOutDirOverride config0 cli).zscore_normalization fitM scoreM).1,
     (normalizedPair sem (applyOutDirOverride config0 cli).zscore_normalization fitM scoreM).2,
     dts_dict, (applyOutDirOverride config0 cli).out_dir,
     (applyOutDirOverride config0 cli).results,
     (applyOutDirOverride config0 cli).top_n, log_file, seed⟩
    ids algOf writesOf good ((badName, badParams) :: rest) hid hgood
  unfold start
  rw [if_pos hcf]
  simp only [startBody, hparse, hmk]
  simp only [afterMkdir, afterRegister, hloader, hload1, hload2, hex1, hex2, hsplit]
  rw [hloop]
  simp only [algLoop, hbadres, hid]
  simp [mkRunArgs, hbadrun]

/-- Witness for C4: a failing algorithm between two good ones. -/
theorem c4_witness :
    ["config.yml"] ∈ sampleWorld ∧
    failMidConfig.outlier_detection =
      [("alg1", [("k", "2")])] ++ ("bad", []) :: [("alg1", [])] ∧
    assocFind "bad" failMidSem.algPool = some failingAlg ∧
    start failMidSem sampleWorld ["config.yml"] none none 1234 =
      (Event.readConfig ["config.yml"] :: (mkdirStep sampleWorld failMidConfig.out_dir).1 ++
        envEvents ++
        Event.registerAlgs :: Event.resolveLoader failMidConfig.data_loader_name ::
        Event.printMsg "Loading data_to_fit" ::
        Event.loadFile failMidConfig.data_loader_name failMidConfig.data_to_fit
          failMidConfig.data_loader_params ::
        Event.printMsg "Loading data_to_score" ::
        Event.loadFile failMidConfig.data_loader_name failMidConfig.data_to_score
          failMidConfig.data_loader_params ::
        Event.extractEvt sampleDataset failMidConfig.features ::
        Event.extractEvt sampleDataset failMidConfig.features ::
        ((if failMidConfig.zscore_normalization then [Event.normalizeEvt] else []) ++
          (specAlgCalls
             (normalizedPair failMidSem failMidConfig.zscore_normalization sampleMatrix sampleMatrix).1
             (normalizedPair failMidSem failMidConfig.zscore_normalization sampleMatrix sampleMatrix).2
             [10, 11, 12] failMidConfig.out_dir failMidConfig.results failMidConfig.top_n
             none 1234 (fun _ => [["out", "alg1.csv"]]) [("alg1", [("k", "2")])] ++
           [Event.resolveAlg "bad",
            Event.invokeAlg "bad"
              ⟨(normalizedPair failMidSem failMidConfig.zscore_normalization sampleMatrix sampleMatrix).1,
               (normalizedPair failMidSem failMidConfig.zscore_normalization sampleMatrix sampleMatrix).2,
               [10, 11, 12], failMidConfig.out_dir, failMidConfig.results,
               failMidConfig.top_n, none, 1234, []⟩])),
       Outcome.errored (Err.external "bad params")) :=
  ⟨by decide, rfl, rfl,
   c4_failure_aborts_rest failMidSem sampleWorld ["config.yml"] none none 1234
     failMidConfig failMidConfig sampleLoader sampleDataset sampleDataset
     sampleMatrix sampleMatrix [10, 11, 12] (fun _ => sampleAlg)
     (fun _ => [["out", "alg1.csv"]]) [("alg1", [("k", "2")])] [("alg1", [])]
     "bad" [] failingAlg (Err.external "bad params")
     (by decide) rfl rfl rfl rfl rfl rfl rfl rfl rfl rfl
     (by
       intro np hnp
       simp at hnp
       subst hnp
       exact ⟨rfl, rfl⟩)
     rfl rfl⟩

/-- Claim C5: when the config_file path does not exist, start prints an error
message and exits with code 1, and the trace contains no configuration read,
no directory creation, and no data load. -/
theorem c5_missing_config_exits (sem : Sem) (w : World) (config_file : Path)
    (out_dir log_file : Option Path) (seed : Int)
    (hcf : config_file ∉ w) :
    start sem w config_file out_dir log_file seed =
      ([Event.printError ("[ERROR] Configuration file not found: " ++
          String.intercalate "/" config_file),
        Event.exitCode 1], Outcome.exited 1) ∧
    (∀ p, Event.readConfig p ∉ (start sem w config_file out_dir log_file seed).1) ∧
    (∀ p, Event.mkdirE p ∉ (start sem w config_file out_dir log_file seed).1) ∧
    (∀ n p ps, Event.loadFile n p ps ∉ (start sem w config_file out_dir log_file seed).1) := by
  have h : start sem w config_file out_dir log_file seed =
      ([Event.printError ("[ERROR] Configuration file not found: " ++
          String.intercalate "/" config_file),
        Event.exitCode 1], Outcome.exited 1) := by
    unfold start
    rw [if_neg hcf]
  exact ⟨h, by simp [h], by simp [h], by simp [h]⟩

/-- Witness for C5. -/
theorem c5_witness :
    ["nope.yml"] ∉ sampleWorld ∧
    (start sampleSem sampleWorld ["nope.yml"] none none 1234 =
      ([Event.printError ("[ERROR] Configuration file not found: " ++
          String.intercalate "/" ["nope.yml"]),
        Event.exitCode 1], Outcome.exited 1) ∧
    (∀ p, Event.readConfig p ∉ (start sampleSem sampleWorld ["nope.yml"] none none 1234).1) ∧
    (∀ p, Event.mkdirE p ∉ (start sampleSem sampleWorld ["nope.yml"] none none 1234).1) ∧
    (∀ n p ps, Event.loadFile n p ps ∉ (start sampleSem sampleWorld ["nope.yml"] none none 1234).1)) :=
  ⟨by decide, c5_missing_config_exits sampleSem sampleWorld ["nope.yml"] none none 1234 (by decide)⟩

/-- Claim C6: exactly one output directory is active per run — a CLI out_dir
replaces the configuration file's out_dir, otherwise the configuration value
is kept unchanged; every directory created and the out_dir of every algorithm
invocation equal that single resolved directory. -/
theorem c6_single_out_dir (sem : Sem) (w : World) (config_file : Path)
    (cli log_file : Option Path) (seed : Int) (config0 : DoraConfig)
    (hcf : config_file ∈ w)
    (hparse : sem.parseConfig config_file = Except.ok config0) :
    (∀ d, cli = some d → (applyOutDirOverride config0 cli).out_dir = d) ∧
    (cli = none → applyOutDirOverride config0 cli = config0) ∧
    (∀ p, Event.mkdirE p ∈ (start sem w config_file cli log_file seed).1 →
      p = (applyOutDirOverride config0 cli).out_dir) ∧
    (∀ n a, Event.invokeAlg n a ∈ (start sem w config_file cli log_file seed).1 →
      a.out_dir = (applyOutDirOverride config0 cli).out_dir) := by
  unfold start
  rw [if_pos hcf]
  simp only [startBody, hparse]
  refine ⟨?_, ?_, ?_, ?_⟩
  · intro d hd
    subst hd
    rfl
  · intro h
    subst h
    rfl
  · intro p hp
    rcases hmk : (mkdirStep w (applyOutDirOverride config0 cli).out_dir).2 with e | u
    · rw [hmk] at hp
      simp at hp
      have := mkdirStep_events w (applyOutDirOverride config0 cli).out_dir _ hp
      simp at this
      exact this
    · rw [hmk] at hp
      simp only [afterMkdir, envEvents] at hp
      simp at hp
      rcases hp with hp | hp
      · have := mkdirStep_events w (applyOutDirOverride config0 cli).out_dir _ hp
        simp at this
        exact this
      · have := afterRegister_events sem (applyOutDirOverride config0 cli) log_file seed _ hp
        simp [TracedEvent] at this
  · intro n a hp
    rcases hmk : (mkdirStep w (applyOutDirOverride config0 cli).out_dir).2 with e | u
    · rw [hmk] at hp
      simp at hp
      have := mkdirStep_events w (applyOutDirOverride config0 cli).out_dir _ hp
      simp at this
    · rw [hmk] at hp
      simp only [afterMkdir, envEvents] at hp
      simp at hp
      rcases hp with hp | hp
      · have := mkdirStep_events w (applyOutDirOverride config0 cli).out_dir _ hp
        simp at this
      · have := afterRegister_events sem (applyOutDirOverride config0 cli) log_file seed _ hp
        simp only [TracedEvent] at this
        exact this.1

/-- Witness for C6 with a CLI override. -/
theorem c6_witness :
    ["config.yml"] ∈ sampleWorld ∧
    sampleSem.parseConfig ["config.yml"] = Except.ok sampleConfig ∧
    ((∀ d, (some ["cli_out"] : Option Path) = some d →
        (applyOutDirOverride sampleConfig (some ["cli_out"])).out_dir = d) ∧
     ((some ["cli_out"] : Option Path) = none →
        applyOutDirOverride sampleConfig (some ["cli_out"]) = sampleConfig) ∧
     (∀ p, Event.mkdirE p ∈
        (start sampleSem sampleWorld ["config.yml"] (some ["cli_out"]) none 1234).1 →
        p = (applyOutDirOverride sampleConfig (some ["cli_out"])).out_dir) ∧
     (∀ n a, Event.invokeAlg n a ∈
        (start sampleSem sampleWorld ["config.yml"] (some ["cli_out"]) none 1234).1 →
        a.out_dir = (applyOutDirOverride sampleConfig (some ["cli_out"])).out_dir)) :=
  ⟨by decide, rfl,
   c6_single_out_dir sampleSem sampleWorld ["config.yml"] (some ["cli_out"]) none 1234
     sampleConfig (by decide) rfl⟩

/-- Claim C7: z-score normalization is applied if and only if the
configuration's zscore_normalization flag is set — every algorithm receives
exactly the normalizedPair of the extracted matrices, which when the flag is
disabled are the extracted matrices unchanged; the normalization event occurs
in the trace exactly when the flag is set. -/
theorem c7_zscore_iff_flag (sem : Sem) (w : World) (config_file : Path)
    (cli log_file : Option Path) (seed : Int) (config0 config : DoraConfig)
    (loader : DataLoader) (dtf_dict dts_dict : Dataset)
    (fitM scoreM : FeatureMatrix)
    (hcf : config_file ∈ w)
    (hparse : sem.parseConfig config_file = Except.ok config0)
    (hconfig : config = applyOutDirOverride config0 cli)
    (hmk : (mkdirStep w config.out_dir).2 = Except.ok ())
    (hloader : assocFind config.data_loader_name sem.loaderPool = some loader)
    (hload1 : loader.load config.data_to_fit config.data_loader_params = Except.ok dtf_dict)
    (hload2 : loader.load config.data_to_score config.data_loader_params = Except.ok dts_dict)
    (hex1 : sem.extract_feature dtf_dict config.features = Except.ok fitM)
    (hex2 : sem.extract_feature dts_dict config.features = Except.ok scoreM) :
    (∀ n a, Event.invokeAlg n a ∈ (start sem w config_file cli log_file seed).1 →
      a.fit_features = (normalizedPair sem config.zscore_normalization fitM scoreM).1 ∧
      a.score_features = (normalizedPair sem config.zscore_normalization fitM scoreM).2) ∧
    (config.zscore_normalization = false →
      ∀ n a, Event.invokeAlg n a ∈ (start sem w config_file cli log_file seed).1 →
        a.fit_features = fitM ∧ a.score_features = scoreM) ∧
    (Event.normalizeEvt ∈ (start sem w config_file cli log_file seed).1 ↔
      config.zscore_normalization = true) := by
  subst hconfig
  unfold start
  rw [if_pos hcf]
  simp only [startBody, hparse, hmk]
  simp only [afterMkdir, afterRegister, hloader, hload1, hload2, hex1, hex2]
  refine ⟨?_, ?_, ?_⟩
  · intro n a hp
    simp [envEvents] at hp
    rcases hp with hp | hp
    · have := mkdirStep_events _ _ _ hp
      simp at this
    · rcases algLoop_events _ _ _ hp with ⟨m, hm⟩ | ⟨m, ids2, p2, hm⟩ | ⟨p2, hm⟩
      · simp at hm
      · injection hm with h1 h2
        subst h2
        simp [mkRunArgs]
      · simp at hm
  · intro hz n a hp
    simp [envEvents, hz] at hp
    rcases hp with hp | hp
    · have := mkdirStep_events _ _ _ hp
      simp at this
    · rcases algLoop_events _ _ _ hp with ⟨m, hm⟩ | ⟨m, ids2, p2, hm⟩ | ⟨p2, hm⟩
      · simp at hm
      · injection hm with h1 h2
        subst h2
        simp [mkRunArgs, normalizedPair, hz]
      · simp at hm
  · cases hz : (applyOutDirOverride config0 cli).zscore_normalization
    · simp only [Bool.false_eq_true, iff_false]
      intro hp
      simp [envEvents, hz] at hp
      rcases hp with hp | hp
      · have := mkdirStep_events _ _ _ hp
        simp at this
      · rcases algLoop_events _ _ _ hp with ⟨m, hm⟩ | ⟨m, ids2, p2, hm⟩ | ⟨p2, hm⟩ <;>
          simp at hm
    · simp [hz, envEvents]

/-- Witness for C7 with normalization enabled and an observable normalizer. -/
theorem c7_witness :
    ["config.yml"] ∈ sampleWorld ∧
    zscoreSem.parseConfig ["config.yml"] = Except.ok zscoreConfig ∧
    zscoreConfig.zscore_normalization = true ∧
    ((∀ n a, Event.invokeAlg n a ∈
        (start zscoreSem sampleWorld ["config.yml"] none none 1234).1 →
      a.fit_features =
        (normalizedPair zscoreSem zscoreConfig.zscore_normalization sampleMatrix sampleMatrix).1 ∧
      a.score_features =
        (normalizedPair zscoreSem zscoreConfig.zscore_normalization sampleMatrix sampleMatrix).2) ∧
     (zscoreConfig.zscore_normalization = false →
      ∀ n a, Event.invokeAlg n a ∈
          (start zscoreSem sampleWorld ["config.yml"] none none 1234).1 →
        a.fit_features = sampleMatrix ∧ a.score_features = sampleMatrix) ∧
     (Event.normalizeEvt ∈ (start zscoreSem sampleWorld ["config.yml"] none none 1234).1 ↔
      zscoreConfig.zscore_normalization = true)) :=
  ⟨by decide, rfl, rfl,
   c7_zscore_iff_flag zscoreSem sampleWorld ["config.yml"] none none 1234
     zscoreConfig zscoreConfig sampleLoader sampleDataset sampleDataset
     sampleMatrix sampleMatrix
     (by decide) rfl rfl rfl rfl rfl rfl rfl rfl⟩

/-- Claim C8: both datasets are loaded through the single resolved data loader
with the loader parameters passed verbatim to each load call, and the driver
applies the identical feature recipe (the configuration's features field) to
both the fit and the score dataset. -/
theorem c8_same_loader_same_recipe (sem : Sem) (w : World) (config_file : Path)
    (cli log_file : Option Path) (seed : Int) (config0 config : DoraConfig)
    (loader : DataLoader) (dtf_dict dts_dict : Dataset)
    (fitM scoreM : FeatureMatrix)
    (hcf : config_file ∈ w)
    (hparse : sem.parseConfig config_file = Except.ok config0)
    (hconfig : config = applyOutDirOverride config0 cli)
    (hmk : (mkdirStep w config.out_dir).2 = Except.ok ())
    (hloader : assocFind config.data_loader_name sem.loaderPool = some loader)
    (hload1 : loader.load config.data_to_fit config.data_loader_params = Except.ok dtf_dict)
    (hload2 : loader.load config.data_to_score config.data_loader_params = Except.ok dts_dict)
    (hex1 : sem.extract_feature dtf_dict config.features = Except.ok fitM)
    (hex2 : sem.extract_feature dts_dict config.features = Except.ok scoreM) :
    Event.loadFile config.data_loader_name config.data_to_fit
      config.data_loader_params ∈ (start sem w config_file cli log_file seed).1 ∧
    Event.loadFile config.data_loader_name config.data_to_score
      config.data_loader_params ∈ (start sem w config_file cli log_file seed).1 ∧
    (∀ n p ps, Event.loadFile n p ps ∈ (start sem w config_file cli log_file seed).1 →
      n = config.data_loader_name ∧ ps = config.data_loader_params ∧
      (p = config.data_to_fit ∨ p = config.data_to_score)) ∧
    Event.extractEvt dtf_dict config.features ∈
      (start sem w config_file cli log_file seed).1 ∧
    Event.extractEvt dts_dict config.features ∈
      (start sem w config_file cli log_file seed).1 ∧
    (∀ d r, Event.extractEvt d r ∈ (start sem w config_file cli log_file seed).1 →
      r = config.features) := by
  subst hconfig
  unfold start
  rw [if_pos hcf]
  simp only [startBody, hparse, hmk]
  refine ⟨?_, ?_, ?_, ?_, ?_, ?_⟩
  · simp only [afterMkdir, afterRegister, hloader, hload1, hload2, hex1, hex2]
    simp
  · simp only [afterMkdir, afterRegister, hloader, hload1, hload2, hex1, hex2]
    simp
  · intro n p ps hp
    simp only [afterMkdir] at hp
    simp [envEvents] at hp
    rcases hp with hp | hp
    · have := mkdirStep_events _ _ _ hp
      simp at this
    · have := afterRegister_events sem _ log_file seed _ hp
      simp only [TracedEvent] at this
      exact ⟨this.1, this.2.1, this.2.2⟩
  · simp only [afterMkdir, afterRegister, hloader, hload1, hload2, hex1, hex2]
    simp
  · simp only [afterMkdir, afterRegister, hloader, hload1, hload2, hex1, hex2]
    simp
  · intro d r hp
    simp only [afterMkdir] at hp
    simp [envEvents] at hp
    rcases hp with hp | hp
    · have := mkdirStep_events _ _ _ hp
      simp at this
    · have := afterRegister_events sem _ log_file seed _ hp
      simp only [TracedEvent] at this
      exact this

/-- Witness for C8. -/
theorem c8_witness :
    ["config.yml"] ∈ sampleWorld ∧
    sampleSem.parseConfig ["config.yml"] = Except.ok sampleConfig ∧
    (Event.loadFile sampleConfig.data_loader_name sampleConfig.data_to_fit
       sampleConfig.data_loader_params ∈
         (start sampleSem sampleWorld ["config.yml"] none none 1234).1 ∧
     Event.loadFile sampleConfig.data_loader_name sampleConfig.data_to_score
       sampleConfig.data_loader_params ∈
         (start sampleSem sampleWorld ["config.yml"] none none 1234).1 ∧
     (∀ n p ps, Event.loadFile n p ps ∈
        (start sampleSem sampleWorld ["config.yml"] none none 1234).1 →
        n = sampleConfig.data_loader_name ∧ ps = sampleConfig.data_loader_params ∧
        (p = sampleConfig.data_to_fit ∨ p = sampleConfig.data_to_score)) ∧
     Event.extractEvt sampleDataset sampleConfig.features ∈
       (start sampleSem sampleWorld ["config.yml"] none none 1234).1 ∧
     Event.extractEvt sampleDataset sampleConfig.features ∈
       (start sampleSem sampleWorld ["config.yml"] none none 1234).1 ∧
     (∀ d r, Event.extractEvt d r ∈
        (start sampleSem sampleWorld ["config.yml"] none none 1234).1 →
        r = sampleConfig.features)) :=
  ⟨by decide, rfl,
   c8_same_loader_same_recipe sampleSem sampleWorld ["config.yml"] none none 1234
     sampleConfig sampleConfig sampleLoader sampleDataset sampleDataset
     sampleMatrix sampleMatrix
     (by decide) rfl rfl rfl rfl rfl rfl rfl rfl⟩

/-- Counterexample to C9 as stated: a run that passes the config-file
existence check but whose configuration's out_dir cannot be created sets no
environment variable at all, so the environment variables are not set on every
run that passes the existence check. -/
theorem c9_counterexample :
    ["config.yml"] ∈ sampleWorld ∧
    (start deepOutSem sampleWorld ["config.yml"] none none 1234).1 =
      [Event.readConfig ["config.yml"]] ∧
    Event.setEnv "CUDA_VISIBLE_DEVICES" "0" ∉
      (start deepOutSem sampleWorld ["config.yml"] none none 1234).1 ∧
    Event.setEnv "TF_FORCE_GPU_ALLOW_GROWTH" "True" ∉
      (start deepOutSem sampleWorld ["config.yml"] none none 1234).1 ∧
    Event.setEnv "TF_CPP_MIN_LOG_LEVEL" "3" ∉
      (start deepOutSem sampleWorld ["config.yml"] none none 1234).1 := by
  refine ⟨by decide, rfl, by decide, by decide, by decide⟩

/-- Claim C9 as amended: on every run that passes the config-file existence
check, configuration parsing, and the output-directory step, start sets
CUDA_VISIBLE_DEVICES to 0, TF_FORCE_GPU_ALLOW_GROWTH to True, and
TF_CPP_MIN_LOG_LEVEL to 3, regardless of the rest of the configuration's
content, before any algorithm is registered, resolved, or invoked — the whole
prefix before registerAlgs consists only of the configuration read and the
directory creation. -/
theorem c9_env_set_unconditionally (sem : Sem) (w : World) (config_file : Path)
    (cli log_file : Option Path) (seed : Int) (config0 config : DoraConfig)
    (hcf : config_file ∈ w)
    (hparse : sem.parseConfig config_file = Except.ok config0)
    (hconfig : config = applyOutDirOverride config0 cli)
    (hmk : (mkdirStep w config.out_dir).2 = Except.ok ()) :
    (start sem w config_file cli log_file seed).1 =
      Event.readConfig config_file :: (mkdirStep w config.out_dir).1 ++
        Event.setEnv "CUDA_VISIBLE_DEVICES" "0" ::
        Event.setEnv "TF_FORCE_GPU_ALLOW_GROWTH" "True" ::
        Event.setEnv "TF_CPP_MIN_LOG_LEVEL" "3" ::
        Event.registerAlgs :: (afterRegister sem config log_file seed).1 ∧
    (∀ e ∈ (mkdirStep w config.out_dir).1, e = Event.mkdirE config.out_dir) := by
  subst hconfig
  refine ⟨?_, mkdirStep_events w (applyOutDirOverride config0 cli).out_dir⟩
  unfold start
  rw [if_pos hcf]
  simp only [startBody, hparse, hmk]
  simp [afterMkdir, envEvents]

/-- Witness for the amended C9. -/
theorem c9_witness :
    ["config.yml"] ∈ sampleWorld ∧
    sampleSem.parseConfig ["config.yml"] = Except.ok sampleConfig ∧
    sampleConfig = applyOutDirOverride sampleConfig none ∧
    (mkdirStep sampleWorld sampleConfig.out_dir).2 = Except.ok () ∧
    ((start sampleSem sampleWorld ["config.yml"] none none 1234).1 =
      Event.readConfig ["config.yml"] :: (mkdirStep sampleWorld sampleConfig.out_dir).1 ++
        Event.setEnv "CUDA_VISIBLE_DEVICES" "0" ::
        Event.setEnv "TF_FORCE_GPU_ALLOW_GROWTH" "True" ::
        Event.setEnv "TF_CPP_MIN_LOG_LEVEL" "3" ::
        Event.registerAlgs :: (afterRegister sampleSem sampleConfig none 1234).1 ∧
     (∀ e ∈ (mkdirStep sampleWorld sampleConfig.out_dir).1,
        e = Event.mkdirE sampleConfig.out_dir)) :=
  ⟨by decide, rfl, rfl, rfl,
   c9_env_set_unconditionally sampleSem sampleWorld ["config.yml"] none none 1234
     sampleConfig sampleConfig (by decide) rfl rfl rfl⟩

/-- Claim C10: output-directory creation is conditional and non-recursive —
if the resolved out_dir exists nothing is created; if it is absent exactly
that single directory level is created; and if its parent is also missing the
run fails with an IOError-class error before any data is loaded or any
algorithm invoked. -/
theorem c10_mkdir_conditional_nonrecursive (sem : Sem) (w : World)
    (config_file : Path) (cli log_file : Option Path) (seed : Int)
    (config0 config : DoraConfig)
    (hcf : config_file ∈ w)
    (hparse : sem.parseConfig config_file = Except.ok config0)
    (hconfig : config = applyOutDirOverride config0 cli) :
    (config.out_dir ∈ w →
      ∀ p, Event.mkdirE p ∉ (start sem w config_file cli log_file seed).1) ∧
    (config.out_dir ∉ w →
      (config.out_dir.dropLast = [] ∨ config.out_dir.dropLast ∈ w) →
      (Event.mkdirE config.out_dir ∈ (start sem w config_file cli log_file seed).1 ∧
       ∀ p, Event.mkdirE p ∈ (start sem w config_file cli log_file seed).1 →
         p = config.out_dir)) ∧
    (config.out_dir ∉ w → config.out_dir.dropLast ≠ [] →
      config.out_dir.dropLast ∉ w →
      ((start sem w config_file cli log_file seed).2 =
         Outcome.errored (Err.ioError config.out_dir) ∧
       (∀ n p ps, Event.loadFile n p ps ∉ (start sem w config_file cli log_file seed).1) ∧
       (∀ n a, Event.invokeAlg n a ∉ (start sem w config_file cli log_file seed).1))) := by
  subst hconfig
  unfold start
  rw [if_pos hcf]
  simp only [startBody, hparse]
  refine ⟨?_, ?_, ?_⟩
  · intro hin p
    have hmk : mkdirStep w (applyOutDirOverride config0 cli).out_dir = ([], Except.ok ()) := by
      simp [mkdirStep, hin]
    rw [hmk]
    intro hmem
    simp only [afterMkdir, envEvents] at hmem
    simp at hmem
    have := afterRegister_events sem (applyOutDirOverride config0 cli) log_file seed _ hmem
    simp [TracedEvent] at this
  · intro hout hpar
    have hmk : mkdirStep w (applyOutDirOverride config0 cli).out_dir =
        ([Event.mkdirE (applyOutDirOverride config0 cli).out_dir], Except.ok ()) := by
      simp [mkdirStep, hout, osMkdir, hpar]
    rw [hmk]
    constructor
    · simp [afterMkdir]
    · intro p hp
      simp only [afterMkdir, envEvents] at hp
      simp at hp
      rcases hp with rfl | hp
      · rfl
      · have := afterRegister_events sem (applyOutDirOverride config0 cli) log_file seed _ hp
        simp [TracedEvent] at this
  · intro hout hne hpar
    have hmk : mkdirStep w (applyOutDirOverride config0 cli).out_dir =
        ([], Except.error (Err.ioError (applyOutDirOverride config0 cli).out_dir)) := by
      simp [mkdirStep, hout, osMkdir, hne, hpar]
    rw [hmk]
    refine ⟨rfl, ?_, ?_⟩ <;> simp

/-- Witness for C10 at an out_dir whose parent directory is missing. -/
theorem c10_witness :
    ["config.yml"] ∈ sampleWorld ∧
    deepOutSem.parseConfig ["config.yml"] = Except.ok deepOutConfig ∧
    deepOutConfig.out_dir ∉ sampleWorld ∧
    deepOutConfig.out_dir.dropLast ≠ [] ∧
    deepOutConfig.out_dir.dropLast ∉ sampleWorld ∧
    ((deepOutConfig.out_dir ∈ sampleWorld →
       ∀ p, Event.mkdirE p ∉
         (start deepOutSem sampleWorld ["config.yml"] none none 1234).1) ∧
     (deepOutConfig.out_dir ∉ sampleWorld →
       (deepOutConfig.out_dir.dropLast = [] ∨ deepOutConfig.out_dir.dropLast ∈ sampleWorld) →
       (Event.mkdirE deepOutConfig.out_dir ∈
          (start deepOutSem sampleWorld ["config.yml"] none none 1234).1 ∧
        ∀ p, Event.mkdirE p ∈
            (start deepOutSem sampleWorld ["config.yml"] none none 1234).1 →
          p = deepOutConfig.out_dir)) ∧
     (deepOutConfig.out_dir ∉ sampleWorld → deepOutConfig.out_dir.dropLast ≠ [] →
       deepOutConfig.out_dir.dropLast ∉ sampleWorld →
       ((start deepOutSem sampleWorld ["config.yml"] none none 1234).2 =
          Outcome.errored (Err.ioError deepOutConfig.out_dir) ∧
        (∀ n p ps, Event.loadFile n p ps ∉
           (start deepOutSem sampleWorld ["config.yml"] none none 1234).1) ∧
        (∀ n a, Event.invokeAlg n a ∉
           (start deepOutSem sampleWorld ["config.yml"] none none 1234).1)))) :=
  ⟨by decide, rfl, by decide, by decide, by decide,
   c10_mkdir_conditional_nonrecursive deepOutSem sampleWorld ["config.yml"] none none 1234
     deepOutConfig deepOutConfig (by decide) rfl rfl⟩

end DoraExp
